import Mathlib

/-!
Verification development for the MIDL MCP server (TypeScript).

We give a shallow embedding of the data model and the operations the
specification talks about: the uniform result envelope (types.ts), the
tool base class with its safe run wrapper (plugins/base/tool-base.ts),
the wallet client adapters (wallet.ts) and the individual tools the
claims mention.  External collaborators (the viem RPC client, the noble
secp256k1 library, keccak256, the mempool HTTP API) are modelled as
explicit oracle parameters: each embedded operation returns, next to its
result envelope, the ordered list of delegate calls it performed, so
that statements about "no network call" or "exactly one delegated call"
become statements about that trace.  JavaScript numbers that hold
satoshi or block counts are modelled as exact integers (they stay far
below 2^53 in every theorem that relies on them), and JavaScript
exceptions are modelled with Except, carrying the error message.
-/

/-- Error information record (types.ts, interface ErrorInfo).  The
`details` payload is an opaque structured blob in the source
(Record of string to unknown); we model it as an optional string. -/
structure ErrorInfo where
  code : String
  message : String
  details : Option String
  suggestion : Option String
deriving DecidableEq, Repr

/-- The uniform result envelope (types.ts, type ToolResponse): a tagged
union of a success case with an operation-specific payload or a failure
case with an ErrorInfo. -/
inductive ToolResponse (T : Type) where
  | success (data : T)
  | failure (error : ErrorInfo)
deriving DecidableEq, Repr

/-- The fixed set of error categories (types.ts, const ErrorCode). -/
inductive ErrorCode where
  | INSUFFICIENT_FUNDS
  | INVALID_ADDRESS
  | RPC_TIMEOUT
  | RPC_CONNECTION_FAILED
  | TX_REVERTED
  | GAS_ESTIMATION_FAILED
  | CONTRACT_NOT_FOUND
  | INVALID_ABI
  | FUNCTION_NOT_FOUND
  | INVALID_PRIVATE_KEY
  | RUNE_NOT_FOUND
  | BRIDGE_PENDING
  | UNKNOWN_ERROR
deriving DecidableEq, Repr

/-- The string value of each error code constant (types.ts: each key of
the ErrorCode object maps to the identically spelled string). -/
def ErrorCode.str : ErrorCode → String
  | .INSUFFICIENT_FUNDS => "INSUFFICIENT_FUNDS"
  | .INVALID_ADDRESS => "INVALID_ADDRESS"
  | .RPC_TIMEOUT => "RPC_TIMEOUT"
  | .RPC_CONNECTION_FAILED => "RPC_CONNECTION_FAILED"
  | .TX_REVERTED => "TX_REVERTED"
  | .GAS_ESTIMATION_FAILED => "GAS_ESTIMATION_FAILED"
  | .CONTRACT_NOT_FOUND => "CONTRACT_NOT_FOUND"
  | .INVALID_ABI => "INVALID_ABI"
  | .FUNCTION_NOT_FOUND => "FUNCTION_NOT_FOUND"
  | .INVALID_PRIVATE_KEY => "INVALID_PRIVATE_KEY"
  | .RUNE_NOT_FOUND => "RUNE_NOT_FOUND"
  | .BRIDGE_PENDING => "BRIDGE_PENDING"
  | .UNKNOWN_ERROR => "UNKNOWN_ERROR"

/-- The fixed set of error code strings, as a list. -/
def errorCodeStrings : List String :=
  ["INSUFFICIENT_FUNDS", "INVALID_ADDRESS", "RPC_TIMEOUT",
   "RPC_CONNECTION_FAILED", "TX_REVERTED", "GAS_ESTIMATION_FAILED",
   "CONTRACT_NOT_FOUND", "INVALID_ABI", "FUNCTION_NOT_FOUND",
   "INVALID_PRIVATE_KEY", "RUNE_NOT_FOUND", "BRIDGE_PENDING",
   "UNKNOWN_ERROR"]

/-- Default remediation suggestions per error code (types.ts, const
ErrorSuggestion).  The source is a Record keyed by code string; every
one of the thirteen codes has an entry, so the lookup never misses. -/
def ErrorSuggestion : ErrorCode → Option String
  | .INSUFFICIENT_FUNDS =>
      some "Use midl_bridge_btc_to_evm to bridge BTC to your EVM wallet"
  | .INVALID_ADDRESS =>
      some "Verify the address format - EVM addresses start with 0x (40 hex chars)"
  | .RPC_TIMEOUT =>
      some "Try again in a few seconds - the network may be congested"
  | .RPC_CONNECTION_FAILED =>
      some "Check network connectivity and try again"
  | .TX_REVERTED =>
      some "Check transaction parameters and ensure sufficient gas"
  | .GAS_ESTIMATION_FAILED =>
      some "Verify contract address exists and function is callable"
  | .CONTRACT_NOT_FOUND =>
      some "Verify contract is deployed at the specified address"
  | .INVALID_ABI =>
      some "Check ABI JSON format and ensure it matches the deployed contract"
  | .FUNCTION_NOT_FOUND =>
      some "List contract functions with midl_read_contract using abi parameter"
  | .INVALID_PRIVATE_KEY =>
      some "Ensure MIDL_PRIVATE_KEY is a valid 64-char hex string"
  | .RUNE_NOT_FOUND =>
      some "Use midl_get_runes to list available runes for the address"
  | .BRIDGE_PENDING =>
      some "Bridge transaction submitted - check status on the explorer"
  | .UNKNOWN_ERROR =>
      some "Check the error details and try again"

/-- Success helper (types.ts, function success). -/
def mkSuccess {T : Type} (data : T) : ToolResponse T := .success data

/-- Error helper (types.ts, function error): builds a failure envelope;
when no suggestion is supplied it falls back to the per-code default
from the ErrorSuggestion table. -/
def mkError {T : Type} (code : ErrorCode) (message : String)
    (details : Option String) (suggestion : Option String) : ToolResponse T :=
  .failure
    { code := code.str
      message := message
      details := details
      suggestion := suggestion.orElse (fun _ => ErrorSuggestion code) }

/-- Tool naming prefix (config.ts, TOOL_PREFIX). -/
def TOOL_PREFIX : String := "midl_"

/-- Tool configuration (tool-base.ts, interface ToolConfig).  The
destructive flag is optional in the source. -/
structure ToolConfig where
  name : String
  description : String
  readOnly : Bool
  destructive : Option Bool

/-- The annotations object placed on tool metadata
(types.ts, ToolMetadata.annotations): exactly two flags. -/
structure ToolAnnotations where
  readOnlyHint : Bool
  destructiveHint : Bool
deriving DecidableEq, Repr

/-- Tool metadata for MCP registration (types.ts, ToolMetadata).  The
zod schema field is not carried here; the claims are about the name and
the annotation flags. -/
structure ToolMetadata where
  name : String
  description : String
  annotations : ToolAnnotations
deriving DecidableEq, Repr

/-- The fields the ToolBase constructor derives from its config
(tool-base.ts, constructor): prefixed name, and destructive defaulting
to false. -/
structure ToolFields where
  name : String
  description : String
  readOnly : Bool
  destructive : Bool
deriving DecidableEq, Repr

/-- ToolBase constructor (tool-base.ts lines 30 to 36). -/
def toolBaseCtor (config : ToolConfig) : ToolFields :=
  { name := TOOL_PREFIX ++ config.name
    description := config.description
    readOnly := config.readOnly
    destructive := config.destructive.getD false }

/-- ToolBase.getMetadata (tool-base.ts lines 41 to 51). -/
def ToolFields.getMetadata (t : ToolFields) : ToolMetadata :=
  { name := t.name
    description := t.description
    annotations :=
      { readOnlyHint := t.readOnly
        destructiveHint := t.destructive } }

/-- A tool, for the purpose of the safe run wrapper (tool-base.ts,
class ToolBase).  `safeParse` models `schema.safeParse` (the failure
case carries the zod error message); `execute` models the abstract
execute body, which may throw (Except.error, carrying the thrown
message) and which additionally reports the ordered list of delegate
calls (SDK method invocations or HTTP fetches) it performed. -/
structure MidlTool (Raw In Out : Type) where
  fields : ToolFields
  safeParse : Raw → Except String In
  execute : In → Except String (ToolResponse Out) × List String

/-- ToolBase.run (tool-base.ts lines 62 to 88): validates the raw input
with the schema, turning a validation failure into an INVALID_INPUT
failure envelope, runs execute, and turns a thrown exception into an
UNKNOWN_ERROR failure envelope.  The envelopes are built as object
literals in the source (not through the error helper), so no default
suggestion is attached.  The second component is the delegate-call
trace (empty when execute was never reached). -/
def MidlTool.run {Raw In Out : Type} (t : MidlTool Raw In Out) (raw : Raw) :
    ToolResponse Out × List String :=
  match t.safeParse raw with
  | .error e =>
      (.failure
        { code := "INVALID_INPUT"
          message := "Invalid input: " ++ e
          details := some e
          suggestion := none }, [])
  | .ok v =>
      match t.execute v with
      | (.ok resp, tr) => (resp, tr)
      | (.error m, tr) =>
          (.failure
            { code := "UNKNOWN_ERROR"
              message := "Tool execution failed: " ++ m
              details := none
              suggestion := none }, tr)

/-! ## String and number utilities shared by the tools -/

/-- Does the character list start with the given pattern? -/
def charListStartsWith : List Char → List Char → Bool
  | _, [] => true
  | [], _ :: _ => false
  | a :: as, b :: bs => a = b && charListStartsWith as bs

/-- Does the pattern occur at some position of the character list? -/
def charListContains (pat : List Char) : List Char → Bool
  | [] => charListStartsWith [] pat
  | c :: rest => charListStartsWith (c :: rest) pat || charListContains pat rest

/-- JavaScript String.prototype.includes(sub). -/
def jsIncludes (s sub : String) : Bool :=
  charListContains sub.data s.data

/-- Hex digit test, matching the character class of the source's
address regexes ([a-fA-F0-9]). -/
def isHexDigitChar (c : Char) : Bool :=
  c.isDigit || ('a' ≤ c && c ≤ 'f') || ('A' ≤ c && c ≤ 'F')

/-- Nonempty all-decimal-digit string (the regex fragment of one or
more ASCII digits). -/
def isDecDigits (s : String) : Bool :=
  decide (0 < s.data.length) && s.data.all Char.isDigit

/-- The EVM address regex of get-evm-balance.ts and transfer-token.ts:
0x followed by exactly 40 hex digits. -/
def evmAddrOk (s : String) : Bool :=
  charListStartsWith s.data ['0', 'x'] && decide (s.data.length = 42) &&
    (s.data.drop 2).all isHexDigitChar

/-- The public key regex of convert-btc-to-evm.ts: optional 0x prefix,
then exactly 66 or exactly 130 hex digits (33 or 65 bytes). -/
def pubKeyOk (s : String) : Bool :=
  let body := if charListStartsWith s.data ['0', 'x'] then s.data.drop 2 else s.data
  (decide (body.length = 66) || decide (body.length = 130)) &&
    body.all isHexDigitChar

/-- Split a character list at every occurrence of the separator
(JavaScript String.prototype.split with a single-character separator;
the empty string yields one empty field). -/
def splitCharsOn (sep : Char) : List Char → List (List Char)
  | [] => [[]]
  | c :: rest =>
      match splitCharsOn sep rest with
      | [] => if c = sep then [[], []] else [[c]]
      | h :: t => if c = sep then [] :: h :: t else (c :: h) :: t

/-- JavaScript String.prototype.split(sep) for a one-character
separator. -/
def jsSplit (s : String) (sep : Char) : List String :=
  (splitCharsOn sep s.data).map String.mk

/-- The rune ID regex of get-rune-erc20-address.ts: two nonempty runs
of decimal digits separated by a single colon. -/
def runeIdOk (s : String) : Bool :=
  match jsSplit s ':' with
  | [a, b] => isDecDigits a && isDecDigits b
  | _ => false

/-- JavaScript String.prototype.padStart(len, c): left-pad to the
target length; strings already long enough are returned unchanged. -/
def jsPadStart (len : Nat) (c : Char) (s : String) : String :=
  String.mk (List.replicate (len - s.data.length) c ++ s.data)

/-- Decimal digit-string to natural number (the exact value of the
JavaScript Number() conversion on an all-digit string; exact for values
below 2^53, which every theorem using it assumes). -/
def jsNumberOfDigits (s : String) : Nat :=
  s.data.foldl (fun acc c => acc * 10 + (c.toNat - 48)) 0

/-- Little-endian hex digits of a natural number (lowercase), with
explicit fuel so the kernel can evaluate it; with fuel above n the
fuel never runs out. -/
def hexDigitsLEAux : Nat → Nat → List Char
  | 0, _ => []
  | fuel + 1, n =>
      if n < 16 then [Nat.digitChar n]
      else Nat.digitChar (n % 16) :: hexDigitsLEAux fuel (n / 16)

/-- Little-endian hex digits of a natural number (lowercase), the
digit sequence behind JavaScript Number.prototype.toString(16). -/
def hexDigitsLE (n : Nat) : List Char := hexDigitsLEAux (n + 1) n

/-- JavaScript Number.prototype.toString(16) for a nonnegative integer
value: lowercase hex without leading zeros ("0" for zero). -/
def jsToHexString (n : Nat) : String :=
  String.mk (hexDigitsLE n).reverse

/-- Value of one hex digit character. -/
def hexDigitVal (c : Char) : Nat :=
  if c.isDigit then c.toNat - 48
  else if 'a' ≤ c && c ≤ 'f' then c.toNat - 87
  else c.toNat - 55

/-- Consecutive pairs of hex digits to byte values. -/
def hexPairsToBytes : List Char → List Nat
  | a :: b :: rest => (16 * hexDigitVal a + hexDigitVal b) :: hexPairsToBytes rest
  | _ => []

/-- viem hexToBytes: strips the 0x prefix and decodes byte pairs;
throws on an odd-length or non-hex body. -/
def hexToBytes (s : String) : Except String (List Nat) :=
  let body := s.data.drop 2
  if body.length % 2 = 0 && body.all isHexDigitChar then
    .ok (hexPairsToBytes body)
  else .error ("Invalid hex value: " ++ s)

/-- Bytes to lowercase hex characters, two per byte. -/
def bytesToHexChars (bs : List Nat) : List Char :=
  bs.foldr (fun b acc => Nat.digitChar (b / 16 % 16) :: Nat.digitChar (b % 16) :: acc) []

/-- Bytes to lowercase hex string (no 0x prefix). -/
def bytesToHex (bs : List Nat) : String :=
  String.mk (bytesToHexChars bs)

/-- Modelled from the spec: the satoshis-per-BTC constant SATOSHIS_PER_BTC
of config.ts (the config excerpt in this snapshot omits the constant;
the spec's satoshi/BTC formatting fixes it at 10^8). -/
def SATOSHIS_PER_BTC : Nat := 100000000

/-- The JavaScript expression (n / SATOSHIS_PER_BTC).toFixed(8) for an
integer satoshi count n: the exact decimal rendering of n / 10^8 with
eight digits after the point (exact for counts below 2^53, where the
double division round-trips through toFixed). -/
def jsToFixed8OfSats (n : Int) : String :=
  let a := n.natAbs
  (if n < 0 then "-" else "") ++
    toString (a / SATOSHIS_PER_BTC) ++ "." ++
    jsPadStart 8 '0' (toString (a % SATOSHIS_PER_BTC))

/-- viem formatUnits for 18 decimals (formatEther): integer part,
then the fractional digits with trailing zeros removed, omitting the
point for whole values. -/
def formatEther (wei : Nat) : String :=
  let base : Nat := 10 ^ 18
  let intPart := toString (wei / base)
  let fracDigits := (jsPadStart 18 '0' (toString (wei % base))).data
  let trimmed := (fracDigits.reverse.dropWhile (fun c => c = '0')).reverse
  if trimmed.isEmpty then intPart else intPart ++ "." ++ String.mk trimmed

/-! ## Wallet client adapters (wallet.ts) -/

/-- Balance response payload (result-types.ts, BalanceInfo). -/
structure BalanceInfo where
  address : String
  balance : String
  balanceFormatted : String
  network : String
  blockNumber : Int
deriving DecidableEq, Repr

/-- Transaction receipt summary (types.ts, TxReceipt). -/
structure TxReceipt where
  transactionHash : String
  blockNumber : Int
  status : String
  gasUsed : String
  explorerUrl : String
deriving DecidableEq, Repr

/-- Raw receipt as delivered by the viem delegate
(waitForTransactionReceipt). -/
structure TxReceiptRaw where
  transactionHash : String
  blockNumber : Int
  status : String
  gasUsed : Int
deriving DecidableEq, Repr

/-- Delegate oracle for MidlWalletClient.getBalance: the two RPC
operations the method invokes, each either returning a value or
throwing (Except.error with the thrown message). -/
structure BalanceRpc where
  getBalance : String → Except String Nat
  getBlockNumber : Except String Nat

/-- MidlWalletClient.getBalance (wallet.ts lines 44 to 63): fetches the
balance, then the current block number, and shapes the success payload;
a throw from either delegate is caught and mapped to an
RPC_CONNECTION_FAILED envelope.  The trace lists the delegate calls
performed, in order. -/
def walletGetBalance (rpc : BalanceRpc) (networkName : String)
    (address : String) : ToolResponse BalanceInfo × List String :=
  match rpc.getBalance address with
  | .error m =>
      (mkError .RPC_CONNECTION_FAILED ("Failed to get balance: " ++ m) none none,
       ["publicClient.getBalance"])
  | .ok balance =>
      match rpc.getBlockNumber with
      | .error m =>
          (mkError .RPC_CONNECTION_FAILED ("Failed to get balance: " ++ m) none none,
           ["publicClient.getBalance", "publicClient.getBlockNumber"])
      | .ok blockNumber =>
          (.success
            { address := address
              balance := toString balance
              balanceFormatted := formatEther balance ++ " BTC"
              network := networkName
              blockNumber := Int.ofNat blockNumber },
           ["publicClient.getBalance", "publicClient.getBlockNumber"])

/-- Delegate oracle for MidlWalletClient.sendTransaction: the
transaction submission (returning the hash) and the receipt wait. -/
structure SendTxRpc where
  sendTransaction : Except String String
  waitForTransactionReceipt : String → Except String TxReceiptRaw

/-- Error mapping of MidlWalletClient.sendTransaction's catch block
(wallet.ts lines 89 to 95): the INSUFFICIENT_FUNDS category exactly
when the message contains the substring "insufficient funds",
TX_REVERTED otherwise. -/
def sendTxCatch (m : String) : ToolResponse TxReceipt :=
  if jsIncludes m "insufficient funds" then
    mkError .INSUFFICIENT_FUNDS m none none
  else
    mkError .TX_REVERTED ("Transaction failed: " ++ m) none none

/-- MidlWalletClient.sendTransaction (wallet.ts lines 66 to 96):
submits the native transfer, waits for the receipt, and shapes the
receipt payload; a throw from either delegate is caught and mapped by
the substring heuristic. -/
def walletSendTransaction (rpc : SendTxRpc) (explorerUrl : String) :
    ToolResponse TxReceipt × List String :=
  match rpc.sendTransaction with
  | .error m => (sendTxCatch m, ["walletClient.sendTransaction"])
  | .ok hash =>
      match rpc.waitForTransactionReceipt hash with
      | .error m =>
          (sendTxCatch m,
           ["walletClient.sendTransaction", "publicClient.waitForTransactionReceipt"])
      | .ok receipt =>
          (.success
            { transactionHash := receipt.transactionHash
              blockNumber := receipt.blockNumber
              status := if receipt.status = "success" then "success" else "reverted"
              gasUsed := toString receipt.gasUsed
              explorerUrl := explorerUrl ++ "/tx/" ++ receipt.transactionHash },
           ["walletClient.sendTransaction", "publicClient.waitForTransactionReceipt"])

/-- Delegate oracle for MidlWalletClient.writeContract: the contract
write submission (returning the hash) and the receipt wait. -/
structure WriteRpc where
  writeContract : Except String String
  waitForTransactionReceipt : String → Except String TxReceiptRaw

/-- MidlWalletClient.writeContract (wallet.ts lines 120 to 151):
submits the write, waits for the receipt, and shapes the payload; a
throw from either delegate is caught and mapped to a TX_REVERTED
envelope. -/
def walletWriteContract (rpc : WriteRpc) (explorerUrl : String) :
    ToolResponse TxReceipt × List String :=
  match rpc.writeContract with
  | .error m =>
      (mkError .TX_REVERTED ("Contract write failed: " ++ m) none none,
       ["walletClient.writeContract"])
  | .ok hash =>
      match rpc.waitForTransactionReceipt hash with
      | .error m =>
          (mkError .TX_REVERTED ("Contract write failed: " ++ m) none none,
           ["walletClient.writeContract", "publicClient.waitForTransactionReceipt"])
      | .ok receipt =>
          (.success
            { transactionHash := receipt.transactionHash
              blockNumber := receipt.blockNumber
              status := if receipt.status = "success" then "success" else "reverted"
              gasUsed := toString receipt.gasUsed
              explorerUrl := explorerUrl ++ "/tx/" ++ receipt.transactionHash },
           ["walletClient.writeContract", "publicClient.waitForTransactionReceipt"])

/-! ## Tool: midl_get_evm_balance (plugins/balance/get-evm-balance.ts) -/

/-- Parsed input of the EVM balance tool: an optional address. -/
structure EvmBalanceInput where
  address : Option String
deriving DecidableEq, Repr

/-- The tool's config object (get-evm-balance.ts, const config). -/
def getEvmBalanceConfig : ToolConfig :=
  { name := "get_evm_balance"
    description := "Get the EVM layer BTC balance. If no address provided, returns balance of connected wallet. Returns balance in wei and formatted BTC."
    readOnly := true
    destructive := some false }

/-- The EVM balance tool (get-evm-balance.ts): the schema accepts a
missing address and otherwise requires the 0x-40-hex format; execute
resolves the address (falling back to the connected wallet address for
operation type evm, with no delegate call) and forwards to
MidlWalletClient.getBalance. -/
def getEvmBalanceTool (rpc : BalanceRpc) (walletAddress networkName : String) :
    MidlTool EvmBalanceInput EvmBalanceInput BalanceInfo :=
  { fields := toolBaseCtor getEvmBalanceConfig
    safeParse := fun raw =>
      match raw.address with
      | none => .ok raw
      | some a => if evmAddrOk a then .ok raw else .error "Invalid EVM address format"
    execute := fun input =>
      let address := input.address.getD walletAddress
      let r := walletGetBalance rpc networkName address
      (.ok r.1, r.2) }

/-! ## Tool: midl_transfer_token (plugins/transfer/transfer-token.ts) -/

/-- Parsed input of the ERC20 transfer tool. -/
structure TransferTokenInput where
  tokenAddress : String
  toAddress : String
  amount : String
deriving DecidableEq, Repr

/-- Result payload (transfer-token.ts, TransferTokenResult: a TxReceipt
extended by token fields).  The source's from and to fields are
spelled fromAddress and toAddress here; both are reserved words. -/
structure TransferTokenResult where
  transactionHash : String
  blockNumber : Int
  status : String
  gasUsed : String
  explorerUrl : String
  tokenAddress : String
  fromAddress : String
  toAddress : String
  amount : String
deriving DecidableEq, Repr

/-- Delegates and library calls of TransferTokenTool.execute: the
decimals read (publicClient.readContract), the viem parseUnits library
function (pure, but it may throw on a malformed amount), and the
contract-write delegates. -/
structure TransferTokenDeps where
  readDecimals : Except String Nat
  parseUnits : String → Nat → Except String Int
  write : WriteRpc

/-- TransferTokenTool.execute (transfer-token.ts lines 52 to 89): reads
the token decimals, parses the human-readable amount, performs the
ERC20 transfer write, and extends the receipt with the token fields; a
throw from the decimals read or from parseUnits is caught and mapped to
a TX_REVERTED envelope. -/
def transferTokenExecute (deps : TransferTokenDeps)
    (explorerUrl walletAddress : String) (input : TransferTokenInput) :
    Except String (ToolResponse TransferTokenResult) × List String :=
  match deps.readDecimals with
  | .error m =>
      (.ok (mkError .TX_REVERTED ("Token transfer failed: " ++ m) none none),
       ["publicClient.readContract"])
  | .ok decimals =>
      match deps.parseUnits input.amount decimals with
      | .error m =>
          (.ok (mkError .TX_REVERTED ("Token transfer failed: " ++ m) none none),
           ["publicClient.readContract"])
      | .ok _value =>
          match walletWriteContract deps.write explorerUrl with
          | (.failure e, tr) =>
              (.ok (.failure e), "publicClient.readContract" :: tr)
          | (.success d, tr) =>
              (.ok (.success
                { transactionHash := d.transactionHash
                  blockNumber := d.blockNumber
                  status := d.status
                  gasUsed := d.gasUsed
                  explorerUrl := d.explorerUrl
                  tokenAddress := input.tokenAddress
                  fromAddress := walletAddress
                  toAddress := input.toAddress
                  amount := input.amount }),
               "publicClient.readContract" :: tr)

/-- The tool's config object (transfer-token.ts, const config). -/
def transferTokenConfig : ToolConfig :=
  { name := "transfer_token"
    description := "Transfer ERC20 tokens to another address."
    readOnly := false
    destructive := some true }

/-- The ERC20 transfer tool (transfer-token.ts): both addresses must
match the 0x-40-hex regex; the amount string is unconstrained. -/
def transferTokenTool (deps : TransferTokenDeps)
    (explorerUrl walletAddress : String) :
    MidlTool TransferTokenInput TransferTokenInput TransferTokenResult :=
  { fields := toolBaseCtor transferTokenConfig
    safeParse := fun raw =>
      if evmAddrOk raw.tokenAddress then
        if evmAddrOk raw.toAddress then .ok raw else .error "Invalid recipient address"
      else .error "Invalid token address"
    execute := transferTokenExecute deps explorerUrl walletAddress }

/-! ## Tool: midl_convert_btc_to_evm (plugins/utility/convert-btc-to-evm.ts) -/

/-- Parsed input: the public key hex string. -/
structure ConvertInput where
  publicKey : String
deriving DecidableEq, Repr

/-- Result payload (result-types.ts, ConvertResult). -/
structure ConvertResult where
  publicKey : String
  evmAddress : String
deriving DecidableEq, Repr

/-- Pure cryptographic library functions used by the derivation
(external collaborators, modelled abstractly): secp256k1 point
decompression (noble, 33-byte compressed in, 65-byte uncompressed out,
throwing on an invalid point), keccak256 over bytes (viem), and the
EIP-55 checksum formatter getAddress (viem). -/
structure CryptoLibs where
  decompress : List Nat → Except String (List Nat)
  keccakBytes : List Nat → List Nat
  checksumAddress : String → String

/-- The last n characters of a string (JavaScript slice(-n)). -/
def stringLastChars (n : Nat) (s : String) : String :=
  String.mk (s.data.drop (s.data.length - n))

/-- Drop the first n characters of a string (JavaScript slice(n)). -/
def strDropChars (n : Nat) (s : String) : String :=
  String.mk (s.data.drop n)

/-- deriveEvmAddress (convert-btc-to-evm.ts lines 137 to 155): ensure
the 0x prefix, decode the hex, decompress a 33-byte compressed key,
drop the uncompressed-point marker byte, keccak256 the remaining 64
bytes, take the last 40 hex digits of the hash, and checksum. -/
def deriveEvmAddress (libs : CryptoLibs) (publicKeyHex : String) :
    Except String String :=
  let hex := if charListStartsWith publicKeyHex.data ['0', 'x'] then publicKeyHex
    else "0x" ++ publicKeyHex
  match hexToBytes hex with
  | .error m => .error m
  | .ok pk =>
      match (if pk.length = 33 then libs.decompress pk else .ok pk) with
      | .error m => .error m
      | .ok pkUncompressed =>
          let publicKeyNoPrefix := pkUncompressed.drop 1
          let hashHex := bytesToHex (libs.keccakBytes publicKeyNoPrefix)
          .ok (libs.checksumAddress ("0x" ++ stringLastChars 40 hashHex))

/-- The tool's config object (convert-btc-to-evm.ts, const config). -/
def convertBtcToEvmConfig : ToolConfig :=
  { name := "convert_btc_to_evm"
    description := "Derive EVM address from Bitcoin public key (compressed 33-byte or uncompressed 65-byte hex). In MIDL, each BTC key deterministically maps to one EVM address via keccak256."
    readOnly := true
    destructive := some false }

/-- The conversion tool (convert-btc-to-evm.ts): the schema enforces
the public key regex; execute runs the pure derivation, catching a
throw (for instance from an invalid compressed point) into an
INVALID_ADDRESS envelope.  No delegate call is ever performed, so the
trace is empty on every path. -/
def convertBtcToEvmTool (libs : CryptoLibs) :
    MidlTool ConvertInput ConvertInput ConvertResult :=
  { fields := toolBaseCtor convertBtcToEvmConfig
    safeParse := fun raw =>
      if pubKeyOk raw.publicKey then .ok raw
      else .error "Invalid public key (33 or 65 bytes hex)"
    execute := fun input =>
      match deriveEvmAddress libs input.publicKey with
      | .ok evmAddress =>
          (.ok (.success { publicKey := input.publicKey, evmAddress := evmAddress }), [])
      | .error m =>
          (.ok (mkError .INVALID_ADDRESS ("Failed to derive EVM address: " ++ m) none none),
           []) }

/-! ## Tool: midl_get_rune_erc20_address
(plugins/utility/get-rune-erc20-address.ts) -/

/-- Result payload (get-rune-erc20-address.ts, RuneAddressResult). -/
structure RuneAddressResult where
  runeId : String
  erc20Address : String
  explorerUrl : String
deriving DecidableEq, Repr

/-- The environment of the rune address derivation: keccak256 on hex
strings (viem), the EIP-55 checksum formatter, the two system contract
addresses imported from the executor SDK, and the explorer base URL
from the network config. -/
structure RuneEnv where
  keccakHex : String → String
  checksumAddress : String → String
  executorAddr : String
  runeImplAddr : String
  explorerUrl : String

/-- runeIdToBytes32 (get-rune-erc20-address.ts lines 40 to 48): split
the rune ID on the colon, convert both parts with Number(), render each
in hex left-padded to 32 hex digits, and concatenate.  Number() is
modelled as the exact decimal value (exact below 2^53). -/
def runeIdToBytes32 (runeId : String) : String :=
  let parts := jsSplit runeId ':'
  let blockHeight := jsNumberOfDigits (parts.headD "")
  let txIndex := jsNumberOfDigits (parts.getD 1 "")
  let blockHex := jsPadStart 32 '0' (jsToHexString blockHeight)
  let txHex := jsPadStart 32 '0' (jsToHexString txIndex)
  "0x" ++ blockHex ++ txHex

/-- viem size() of a hex string: the number of bytes it denotes,
rounding a stray half byte up. -/
def viemHexSize (s : String) : Nat := (s.data.length - 2 + 1) / 2

/-- viem encodePacked for a single bytes32 argument: the value itself,
after checking that it denotes exactly 32 bytes (viem throws a
BytesSizeMismatchError otherwise). -/
def encodePackedBytes32 (v : String) : Except String String :=
  if viemHexSize v = 32 then .ok v else .error "BytesSizeMismatchError"

/-- viem getContractAddress with opcode CREATE2: the checksummed last
20 bytes of keccak256(0xff ++ deployer ++ salt ++ keccak256(bytecode)),
all operands as hex. -/
def create2Address (keccakHex : String → String)
    (checksum : String → String) (deployer salt bytecode : String) : String :=
  let payload := "0xff" ++ strDropChars 2 deployer ++ strDropChars 2 salt ++
    strDropChars 2 (keccakHex bytecode)
  checksum ("0x" ++ String.mk ((keccakHex payload).data.drop 26))

/-- The minimal-proxy bytecode pointing at the RuneImplementation
system contract (get-rune-erc20-address.ts line 54). -/
def runeProxyBytecode (runeImplAddr : String) : String :=
  "0x3d602d80600a3d3981f3363d3d373d3d3d363d73" ++ strDropChars 2 runeImplAddr ++
    "5af43d82803e903d91602b57fd5bf3"

/-- getCreate2RuneAddress (get-rune-erc20-address.ts lines 51 to 62):
salt is keccak256 of the packed rune ID, the deployed code is the
minimal proxy, the deployer the Executor system contract.  The
encodePacked size check may throw. -/
def getCreate2RuneAddress (env : RuneEnv) (runeId : String) :
    Except String String :=
  match encodePackedBytes32 (runeIdToBytes32 runeId) with
  | .error m => .error m
  | .ok packed =>
      let salt := env.keccakHex packed
      .ok (create2Address env.keccakHex env.checksumAddress env.executorAddr
        salt (runeProxyBytecode env.runeImplAddr))

/-- The tool's config object (get-rune-erc20-address.ts, const config). -/
def getRuneErc20AddressConfig : ToolConfig :=
  { name := "get_rune_erc20_address"
    description := "Get the ERC20 contract address for a Rune. Each Rune has a deterministic ERC20 address derived via CREATE2."
    readOnly := true
    destructive := some false }

/-- Parsed input of the rune address tool. -/
structure RuneIdInput where
  runeId : String
deriving DecidableEq, Repr

/-- The rune address tool (get-rune-erc20-address.ts): the schema
enforces the rune ID regex; execute derives the address with no
delegate call (empty trace).  The execute body has no try/catch, so a
throw from the derivation propagates to the run wrapper. -/
def runeErc20AddressTool (env : RuneEnv) :
    MidlTool RuneIdInput RuneIdInput RuneAddressResult :=
  { fields := toolBaseCtor getRuneErc20AddressConfig
    safeParse := fun raw =>
      if runeIdOk raw.runeId then .ok raw
      else .error "Invalid rune ID format. Expected format: blockHeight:txIndex (e.g., \x22840000:1\x22)"
    execute := fun input =>
      match getCreate2RuneAddress env input.runeId with
      | .error m => (.error m, [])
      | .ok erc20Address =>
          (.ok (.success
            { runeId := input.runeId
              erc20Address := erc20Address
              explorerUrl := env.explorerUrl ++ "/address/" ++ erc20Address }), []) }

/-! ## Tool: midl_get_btc_balance (plugins/balance/get-btc-balance.ts) -/

/-- Parsed input: the Bitcoin address string. -/
structure BtcBalanceInput where
  address : String
deriving DecidableEq, Repr

/-- Result payload (get-btc-balance.ts, BtcBalanceInfo): all amounts
are strings to avoid precision loss. -/
structure BtcBalanceInfo where
  address : String
  balanceSatoshis : String
  balanceFormatted : String
  confirmedSatoshis : String
  unconfirmedSatoshis : String
  network : String
deriving DecidableEq, Repr

/-- One stats block of the mempool API response. -/
structure BtcApiStats where
  funded_txo_sum : Int
  spent_txo_sum : Int
deriving DecidableEq, Repr

/-- The mempool API address response body. -/
structure BtcApiData where
  chain_stats : BtcApiStats
  mempool_stats : BtcApiStats
deriving DecidableEq, Repr

/-- The outcome of fetch(url): the fetch itself may throw; a delivered
response has an ok flag, a status code, and a body whose JSON parse may
itself throw. -/
structure FetchResponse where
  ok : Bool
  status : Nat
  body : Except String BtcApiData
deriving Repr

/-- GetBtcBalanceTool.execute (get-btc-balance.ts lines 55 to 95): one
HTTP fetch against the mempool API; a non-ok status or a throw becomes
an RPC_CONNECTION_FAILED envelope; otherwise the confirmed balance is
the chain-stats funded sum minus spent sum, the unconfirmed balance the
mempool-stats difference, and the payload carries their sum and its
eight-decimal BTC rendering. -/
def btcBalanceExecute (fetchResult : Except String FetchResponse)
    (networkName mempoolUrl : String) (input : BtcBalanceInput) :
    Except String (ToolResponse BtcBalanceInfo) × List String :=
  let url := mempoolUrl ++ "/api/address/" ++ input.address
  match fetchResult with
  | .error m =>
      (.ok (mkError .RPC_CONNECTION_FAILED ("Failed to fetch BTC balance: " ++ m) none none),
       ["fetch"])
  | .ok response =>
      if response.ok = false then
        (.ok (mkError .RPC_CONNECTION_FAILED
          ("Mempool API returned " ++ toString response.status) (some url) none),
         ["fetch"])
      else
        match response.body with
        | .error m =>
            (.ok (mkError .RPC_CONNECTION_FAILED
              ("Failed to fetch BTC balance: " ++ m) none none), ["fetch"])
        | .ok data =>
            let confirmedSatoshis :=
              data.chain_stats.funded_txo_sum - data.chain_stats.spent_txo_sum
            let unconfirmedSatoshis :=
              data.mempool_stats.funded_txo_sum - data.mempool_stats.spent_txo_sum
            let totalSatoshis := confirmedSatoshis + unconfirmedSatoshis
            (.ok (.success
              { address := input.address
                balanceSatoshis := toString totalSatoshis
                balanceFormatted := jsToFixed8OfSats totalSatoshis ++ " BTC"
                confirmedSatoshis := toString confirmedSatoshis
                unconfirmedSatoshis := toString unconfirmedSatoshis
                network := networkName }), ["fetch"])

/-- The tool's config object (get-btc-balance.ts, const config). -/
def getBtcBalanceConfig : ToolConfig :=
  { name := "get_btc_balance"
    description := "Get the Bitcoin L1 balance for an address. Returns confirmed and unconfirmed balances in satoshis. This queries the mempool API directly."
    readOnly := true
    destructive := some false }

/-- The BTC balance tool (get-btc-balance.ts): the schema only bounds
the address length (min 26, max 90 characters). -/
def getBtcBalanceTool (fetchResult : Except String FetchResponse)
    (networkName mempoolUrl : String) :
    MidlTool BtcBalanceInput BtcBalanceInput BtcBalanceInfo :=
  { fields := toolBaseCtor getBtcBalanceConfig
    safeParse := fun raw =>
      if 26 ≤ raw.address.data.length ∧ raw.address.data.length ≤ 90 then .ok raw
      else .error "String must contain at least 26 character(s)"
    execute := btcBalanceExecute fetchResult networkName mempoolUrl }

/-! ## Tool: midl_bridge_btc_to_evm (plugins/bridge, the intention
variant of the unnamed sources) -/

/-- The amount unit (the zod enum with default btc). -/
inductive BridgeUnit where
  | btc
  | satoshis
deriving DecidableEq, Repr

/-- Raw input before the zod default is applied. -/
structure BridgeRawInput where
  amount : String
  unit : Option BridgeUnit
deriving DecidableEq, Repr

/-- Parsed input after the default. -/
structure BridgeInput where
  amount : String
  unit : BridgeUnit
deriving DecidableEq, Repr

/-- Result payload (result-types.ts, BridgeBtcToEvmResult). -/
structure BridgeBtcToEvmResult where
  btcTxId : String
  btcTxHex : String
  satoshis : String
  btcAmount : String
  explorerUrl : String
  status : String
deriving DecidableEq, Repr

/-- What the BTC wallet delegate returns on a successful bridge. -/
structure BridgeDelegateResult where
  btcTxId : String
  btcTxHex : String
deriving DecidableEq, Repr

/-- The JavaScript builtins and delegates of BridgeBtcToEvmTool:
parseFloat (none models NaN), the BigInt string conversion (which
throws on a malformed numeral), and the BTC wallet delegate pair
(connect, then the bridge intention). -/
structure BridgeDeps where
  parseFloat : String → Option ℚ
  parseBigInt : String → Except String Int
  connect : Except String Unit
  bridgeBtcToEvm : Int → Except String BridgeDelegateResult

/-- The catch block of BridgeBtcToEvmTool.execute: a message containing
"insufficient" maps to INSUFFICIENT_FUNDS with an explicit suggestion,
anything else to RPC_CONNECTION_FAILED. -/
def bridgeCatch (m : String) : ToolResponse BridgeBtcToEvmResult :=
  if jsIncludes m "insufficient" then
    mkError .INSUFFICIENT_FUNDS ("Insufficient BTC balance: " ++ m) none
      (some "Ensure your Bitcoin address has enough BTC to cover the amount plus fees")
  else
    mkError .RPC_CONNECTION_FAILED ("Bridge failed: " ++ m) none none

/-- The tail of BridgeBtcToEvmTool.execute once the satoshi amount is
known: the positivity re-check, then wallet creation and connection,
then the bridge delegate, then the success payload. -/
def bridgeAfterParse (deps : BridgeDeps) (mempoolUrl : String) (satoshis : Int) :
    Except String (ToolResponse BridgeBtcToEvmResult) × List String :=
  if satoshis ≤ 0 then
    (.ok (mkError .INVALID_ADDRESS "Amount must be greater than 0" none none), [])
  else
    match deps.connect with
    | .error m => (.ok (bridgeCatch m), ["btcWallet.connect"])
    | .ok _ =>
        match deps.bridgeBtcToEvm satoshis with
        | .error m =>
            (.ok (bridgeCatch m), ["btcWallet.connect", "btcWallet.bridgeBtcToEvm"])
        | .ok r =>
            (.ok (.success
              { btcTxId := r.btcTxId
                btcTxHex := r.btcTxHex
                satoshis := toString satoshis
                btcAmount := jsToFixed8OfSats satoshis ++ " BTC"
                explorerUrl := mempoolUrl ++ "/tx/" ++ r.btcTxId
                status := "pending_confirmation" }),
             ["btcWallet.connect", "btcWallet.bridgeBtcToEvm"])

/-- BridgeBtcToEvmTool.execute (the bridge tool source, lines 45 to
98): in BTC units, a NaN or non-positive parseFloat result is rejected
as INVALID_ADDRESS before anything else; otherwise the amount is
floored into satoshis.  In satoshi units the BigInt conversion may
throw into the catch block.  Either way a non-positive satoshi amount
is rejected as INVALID_ADDRESS before the BTC wallet is created or
connected. -/
def bridgeExecute (deps : BridgeDeps) (mempoolUrl : String)
    (input : BridgeInput) :
    Except String (ToolResponse BridgeBtcToEvmResult) × List String :=
  match input.unit with
  | .btc =>
      match deps.parseFloat input.amount with
      | none =>
          (.ok (mkError .INVALID_ADDRESS ("Invalid BTC amount: " ++ input.amount) none none),
           [])
      | some btcAmount =>
          if btcAmount ≤ 0 then
            (.ok (mkError .INVALID_ADDRESS ("Invalid BTC amount: " ++ input.amount) none none),
             [])
          else
            bridgeAfterParse deps mempoolUrl ⌊btcAmount * (SATOSHIS_PER_BTC : ℚ)⌋
  | .satoshis =>
      match deps.parseBigInt input.amount with
      | .error m => (.ok (bridgeCatch m), [])
      | .ok satoshis => bridgeAfterParse deps mempoolUrl satoshis

/-- The tool's config object (the bridge tool source, const config). -/
def bridgeBtcToEvmConfig : ToolConfig :=
  { name := "bridge_btc_to_evm"
    description := "Bridge BTC from the Bitcoin layer to the EVM layer. Creates a deposit transaction that sends BTC to the TSS multisig, which validators process to credit your EVM address."
    readOnly := false
    destructive := some false }

/-- The bridge tool: the schema accepts any amount string and applies
the btc default to a missing unit. -/
def bridgeBtcToEvmTool (deps : BridgeDeps) (mempoolUrl : String) :
    MidlTool BridgeRawInput BridgeInput BridgeBtcToEvmResult :=
  { fields := toolBaseCtor bridgeBtcToEvmConfig
    safeParse := fun raw => .ok { amount := raw.amount, unit := raw.unit.getD .btc }
    execute := bridgeExecute deps mempoolUrl }

/-! ## Concrete instances used by witnesses and counterexamples -/

/-- A small concrete tool exercising every path of the run wrapper:
the schema rejects 0, execute throws on 1 and succeeds otherwise. -/
def demoTool : MidlTool Nat Nat Nat :=
  { fields := toolBaseCtor
      { name := "demo", description := "demo", readOnly := true, destructive := none }
    safeParse := fun n => if n = 0 then .error "bad" else .ok n
    execute := fun n =>
      if n = 1 then (.error "boom", []) else (.ok (.success n), []) }

/-- A balance RPC oracle whose delegates both succeed. -/
def demoBalanceRpc : BalanceRpc :=
  { getBalance := fun _ => .ok 5
    getBlockNumber := .ok 7 }

/-- Transfer delegates that all succeed. -/
def demoTransferDeps : TransferTokenDeps :=
  { readDecimals := .ok 18
    parseUnits := fun _ _ => .ok 100
    write :=
      { writeContract := .ok "0xhash"
        waitForTransactionReceipt := fun h =>
          .ok { transactionHash := h, blockNumber := 3, status := "success", gasUsed := 21000 } } }

/-- A valid 0x-40-hex address literal. -/
def demoAddr : String := "0xaaaaaaaaaaaaaaaaaaaaaaaaaaaaaaaaaaaaaaaa"

/-! ## Claims -/

/-- C1: for every tool and every raw input, the run wrapper returns an
envelope and never lets a fault escape: a schema violation yields an
INVALID_INPUT failure envelope (no exception), a throw inside execute
is caught into an UNKNOWN_ERROR failure envelope, and an envelope
returned by execute passes through unchanged. -/
theorem run_wrapper_is_total_boundary {Raw In Out : Type}
    (t : MidlTool Raw In Out) (raw : Raw) :
    (∀ e, t.safeParse raw = .error e →
      (t.run raw).1 = .failure
        { code := "INVALID_INPUT", message := "Invalid input: " ++ e,
          details := some e, suggestion := none }) ∧
    (∀ v m tr, t.safeParse raw = .ok v → t.execute v = (.error m, tr) →
      (t.run raw).1 = .failure
        { code := "UNKNOWN_ERROR", message := "Tool execution failed: " ++ m,
          details := none, suggestion := none }) ∧
    (∀ v r tr, t.safeParse raw = .ok v → t.execute v = (.ok r, tr) →
      (t.run raw).1 = r) := by
  refine ⟨fun e he => ?_, fun v m tr hv hx => ?_, fun v r tr hv hx => ?_⟩
  · unfold MidlTool.run
    rw [he]
  · simp [MidlTool.run, hv, hx]
  · simp [MidlTool.run, hv, hx]

/-- Witness for C1: the three clauses at the concrete demo tool. -/
theorem run_wrapper_is_total_boundary_witness :
    (demoTool.run 0).1 = .failure
      { code := "INVALID_INPUT", message := "Invalid input: bad",
        details := some "bad", suggestion := none } ∧
    (demoTool.run 1).1 = .failure
      { code := "UNKNOWN_ERROR", message := "Tool execution failed: boom",
        details := none, suggestion := none } ∧
    (demoTool.run 2).1 = .success 2 :=
  ⟨(run_wrapper_is_total_boundary demoTool 0).1 "bad" rfl,
   (run_wrapper_is_total_boundary demoTool 1).2.1 1 "boom" [] rfl rfl,
   (run_wrapper_is_total_boundary demoTool 2).2.2 2 (.success 2) [] rfl rfl⟩

/-- C5: every envelope built by the error helper carries the code
string of a member of the fixed ErrorCode set, the supplied message and
details; an explicitly supplied hint is kept, and a missing hint
defaults to the per-category entry of the ErrorSuggestion table (which
has an entry for every category, so it is never absent here). -/
theorem error_helper_envelope (code : ErrorCode) (message : String)
    (details : Option String) (s : String) :
    (@mkError Unit code message details none = .failure
      { code := code.str, message := message, details := details,
        suggestion := ErrorSuggestion code }) ∧
    (@mkError Unit code message details (some s) = .failure
      { code := code.str, message := message, details := details,
        suggestion := some s }) ∧
    code.str ∈ errorCodeStrings ∧
    (ErrorSuggestion code).isSome = true := by
  refine ⟨rfl, rfl, ?_, ?_⟩
  · cases code <;> simp [ErrorCode.str, errorCodeStrings]
  · cases code <;> rfl

/-- C8: the metadata of a tool built from any config carries exactly
the two annotation flags, readOnlyHint equal to the config's readOnly
and destructiveHint equal to its destructive value defaulting to false,
and the registered name is the config name with the midl_ prefix. -/
theorem tool_metadata_flags_and_name (config : ToolConfig) :
    (toolBaseCtor config).getMetadata =
      { name := "midl_" ++ config.name
        description := config.description
        annotations :=
          { readOnlyHint := config.readOnly
            destructiveHint := config.destructive.getD false } } := rfl

/-- C2 counterexample: at the concrete malformed address 0x123 the EVM
balance tool returns, before any delegate call, a failure envelope
whose category is INVALID_INPUT (the generic schema-violation code of
the run wrapper), not the INVALID_ADDRESS category the claim names.
Only the category and the empty trace are asserted, so the statement
does not depend on how the zod validation message is modelled. -/
theorem evm_balance_bad_address_category_cx :
    (∃ e, ((getEvmBalanceTool demoBalanceRpc demoAddr "regtest").run
        { address := some "0x123" }).1 = .failure e ∧
      e.code = "INVALID_INPUT") ∧
    ((getEvmBalanceTool demoBalanceRpc demoAddr "regtest").run
        { address := some "0x123" }).2 = [] ∧
    "INVALID_INPUT" ≠ "INVALID_ADDRESS" := by
  exact ⟨⟨_, rfl, rfl⟩, rfl, by decide⟩

/-- C2 (amended): for every input whose address is present but does not
match the 0x-40-hex EVM format, the EVM balance tool fails before any
delegate call (the trace is empty) with a failure envelope carrying the
INVALID_INPUT category. -/
theorem evm_balance_bad_address_rejected_before_network (rpc : BalanceRpc)
    (walletAddress networkName a : String) (h : evmAddrOk a = false) :
    ((getEvmBalanceTool rpc walletAddress networkName).run { address := some a }).2 = [] ∧
    ∃ e, ((getEvmBalanceTool rpc walletAddress networkName).run { address := some a }).1 =
        .failure e ∧ e.code = "INVALID_INPUT" := by
  have hrun : (getEvmBalanceTool rpc walletAddress networkName).run { address := some a } =
      (.failure
        { code := "INVALID_INPUT"
          message := "Invalid input: Invalid EVM address format"
          details := some "Invalid EVM address format"
          suggestion := none }, []) := by
    simp [MidlTool.run, getEvmBalanceTool, h]
  rw [hrun]
  exact ⟨rfl, _, rfl, rfl⟩

/-- Witness for the amended C2 at the concrete address 0x123. -/
theorem evm_balance_bad_address_rejected_before_network_witness :
    evmAddrOk "0x123" = false ∧
    (((getEvmBalanceTool demoBalanceRpc demoAddr "regtest").run
        { address := some "0x123" }).2 = [] ∧
      ∃ e, ((getEvmBalanceTool demoBalanceRpc demoAddr "regtest").run
          { address := some "0x123" }).1 = .failure e ∧ e.code = "INVALID_INPUT") :=
  ⟨by decide,
   evm_balance_bad_address_rejected_before_network demoBalanceRpc demoAddr "regtest"
     "0x123" (by decide)⟩

/-- Helper: whenever MidlWalletClient.getBalance returns a success
envelope, it performed exactly the balance fetch followed by the block
number fetch. -/
theorem walletGetBalance_success_trace (rpc : BalanceRpc) (nn addr : String)
    (d : BalanceInfo) (h : (walletGetBalance rpc nn addr).1 = .success d) :
    (walletGetBalance rpc nn addr).2 =
      ["publicClient.getBalance", "publicClient.getBlockNumber"] := by
  rcases hg : rpc.getBalance addr with m | bal
  · simp only [walletGetBalance, hg] at h
    simp [mkError] at h
  · rcases hb : rpc.getBlockNumber with m | bn
    · simp only [walletGetBalance, hg, hb] at h
      simp [mkError] at h
    · simp only [walletGetBalance, hg, hb]

/-- Helper: whenever MidlWalletClient.writeContract returns a success
envelope, it performed exactly the write submission followed by the
receipt wait. -/
theorem walletWriteContract_success_trace (rpc : WriteRpc) (eu : String)
    (d : TxReceipt) (h : (walletWriteContract rpc eu).1 = .success d) :
    (walletWriteContract rpc eu).2 =
      ["walletClient.writeContract", "publicClient.waitForTransactionReceipt"] := by
  rcases hw : rpc.writeContract with m | hash
  · simp only [walletWriteContract, hw] at h
    simp [mkError] at h
  · rcases hr : rpc.waitForTransactionReceipt hash with m | receipt
    · simp only [walletWriteContract, hw, hr] at h
      simp [mkError] at h
    · simp only [walletWriteContract, hw, hr]

/-- Helper: a success envelope from the EVM balance tool run comes with
exactly the two-delegate trace. -/
theorem evmBalanceRun_success_trace (rpc : BalanceRpc)
    (walletAddress networkName : String) (raw : EvmBalanceInput) (d : BalanceInfo)
    (h : ((getEvmBalanceTool rpc walletAddress networkName).run raw).1 = .success d) :
    ((getEvmBalanceTool rpc walletAddress networkName).run raw).2 =
      ["publicClient.getBalance", "publicClient.getBlockNumber"] := by
  rcases raw with ⟨a?⟩
  cases a? with
  | none =>
      simp only [MidlTool.run, getEvmBalanceTool, Option.getD_none] at h ⊢
      exact walletGetBalance_success_trace rpc networkName walletAddress d h
  | some a =>
      by_cases hA : evmAddrOk a
      · simp only [MidlTool.run, getEvmBalanceTool, hA, if_true, Option.getD_some] at h ⊢
        exact walletGetBalance_success_trace rpc networkName a d h
      · simp [MidlTool.run, getEvmBalanceTool, hA] at h

/-- Helper: a success from TransferTokenTool.execute comes with exactly
the three-delegate trace. -/
theorem transferTokenExecute_success_trace (deps : TransferTokenDeps)
    (eu wa : String) (input : TransferTokenInput) (d : TransferTokenResult)
    (h : (transferTokenExecute deps eu wa input).1 = .ok (.success d)) :
    (transferTokenExecute deps eu wa input).2 =
      ["publicClient.readContract", "walletClient.writeContract",
       "publicClient.waitForTransactionReceipt"] := by
  rcases hd : deps.readDecimals with m | dec
  · simp only [transferTokenExecute, hd] at h
    simp [mkError] at h
  · rcases hp : deps.parseUnits input.amount dec with m | v
    · simp only [transferTokenExecute, hd, hp] at h
      simp [mkError] at h
    · rcases hw : walletWriteContract deps.write eu with ⟨res, trW⟩
      cases res with
      | failure e =>
          simp only [transferTokenExecute, hd, hp, hw] at h
          simp at h
      | success dd =>
          have h1 : (walletWriteContract deps.write eu).1 = .success dd := by
            rw [hw]
          have htr := walletWriteContract_success_trace deps.write eu dd h1
          rw [hw] at htr
          simp only [transferTokenExecute, hd, hp, hw]
          simpa using htr

/-- Helper: a success envelope from the token transfer tool run comes
with exactly the three-delegate trace. -/
theorem transferTokenRun_success_trace (deps : TransferTokenDeps)
    (eu wa : String) (raw : TransferTokenInput) (d : TransferTokenResult)
    (h : ((transferTokenTool deps eu wa).run raw).1 = .success d) :
    ((transferTokenTool deps eu wa).run raw).2 =
      ["publicClient.readContract", "walletClient.writeContract",
       "publicClient.waitForTransactionReceipt"] := by
  by_cases h1 : evmAddrOk raw.tokenAddress
  · by_cases h2 : evmAddrOk raw.toAddress
    · rcases hx : transferTokenExecute deps eu wa raw with ⟨exRes, trX⟩
      cases exRes with
      | error m =>
          simp only [MidlTool.run, transferTokenTool, h1, h2, if_true, hx] at h
          simp at h
      | ok resp =>
          cases resp with
          | failure e =>
              simp only [MidlTool.run, transferTokenTool, h1, h2, if_true, hx] at h
              simp at h
          | success dd =>
              have hx1 : (transferTokenExecute deps eu wa raw).1 = .ok (.success dd) := by
                rw [hx]
              have htr := transferTokenExecute_success_trace deps eu wa raw dd hx1
              rw [hx] at htr
              simp only [MidlTool.run, transferTokenTool, h1, h2, if_true, hx]
              simpa using htr
    · simp [MidlTool.run, transferTokenTool, h1, h2] at h
  · simp [MidlTool.run, transferTokenTool, h1] at h

/-- C3 counterexample: with delegates that all succeed, the EVM balance
lookup reaches its success envelope after two delegated calls and the
ERC20 token transfer after three, so neither performs exactly one
delegated call on the path to a success envelope. -/
theorem one_delegated_call_cx :
    (getEvmBalanceTool demoBalanceRpc demoAddr "regtest").run { address := none } =
      (.success
        { address := demoAddr, balance := "5",
          balanceFormatted := "0.000000000000000005 BTC",
          network := "regtest", blockNumber := 7 },
       ["publicClient.getBalance", "publicClient.getBlockNumber"]) ∧
    (transferTokenTool demoTransferDeps "https://e" demoAddr).run
        { tokenAddress := demoAddr, toAddress := demoAddr, amount := "100" } =
      (.success
        { transactionHash := "0xhash", blockNumber := 3, status := "success",
          gasUsed := "21000", explorerUrl := "https://e/tx/0xhash",
          tokenAddress := demoAddr, fromAddress := demoAddr,
          toAddress := demoAddr, amount := "100" },
       ["publicClient.readContract", "walletClient.writeContract",
        "publicClient.waitForTransactionReceipt"]) ∧
    (["publicClient.getBalance", "publicClient.getBlockNumber"] : List String).length ≠ 1 ∧
    (["publicClient.readContract", "walletClient.writeContract",
      "publicClient.waitForTransactionReceipt"] : List String).length ≠ 1 := by
  refine ⟨by decide, by decide, by decide, by decide⟩

/-- C3 (amended): on the path to a success envelope, the EVM balance
lookup performs exactly two delegated calls (the balance fetch then the
block-number fetch) and the ERC20 token transfer exactly three (the
decimals read, the write submission, then the receipt wait); neither of
the two operations the claim names performs exactly one. -/
theorem success_path_delegate_call_counts (rpc : BalanceRpc)
    (deps : TransferTokenDeps)
    (walletAddress networkName explorerUrl senderAddress : String)
    (rawB : EvmBalanceInput) (rawT : TransferTokenInput) :
    (∀ d tr, (getEvmBalanceTool rpc walletAddress networkName).run rawB =
        (.success d, tr) →
      tr = ["publicClient.getBalance", "publicClient.getBlockNumber"] ∧
        tr.length = 2) ∧
    (∀ d tr, (transferTokenTool deps explorerUrl senderAddress).run rawT =
        (.success d, tr) →
      tr = ["publicClient.readContract", "walletClient.writeContract",
        "publicClient.waitForTransactionReceipt"] ∧ tr.length = 3) := by
  constructor
  · intro d tr h
    have h1 : ((getEvmBalanceTool rpc walletAddress networkName).run rawB).1 =
        .success d := by rw [h]
    have h2 : ((getEvmBalanceTool rpc walletAddress networkName).run rawB).2 = tr := by
      rw [h]
    have := evmBalanceRun_success_trace rpc walletAddress networkName rawB d h1
    rw [h2] at this
    exact ⟨this, by rw [this]; rfl⟩
  · intro d tr h
    have h1 : ((transferTokenTool deps explorerUrl senderAddress).run rawT).1 =
        .success d := by rw [h]
    have h2 : ((transferTokenTool deps explorerUrl senderAddress).run rawT).2 = tr := by
      rw [h]
    have := transferTokenRun_success_trace deps explorerUrl senderAddress rawT d h1
    rw [h2] at this
    exact ⟨this, by rw [this]; rfl⟩

/-- Witness for the amended C3 at the concrete all-success delegates. -/
theorem success_path_delegate_call_counts_witness :
    ((["publicClient.getBalance", "publicClient.getBlockNumber"] : List String) =
        ["publicClient.getBalance", "publicClient.getBlockNumber"] ∧
      (["publicClient.getBalance", "publicClient.getBlockNumber"] : List String).length = 2) ∧
    ((["publicClient.readContract", "walletClient.writeContract",
        "publicClient.waitForTransactionReceipt"] : List String) =
        ["publicClient.readContract", "walletClient.writeContract",
         "publicClient.waitForTransactionReceipt"] ∧
      (["publicClient.readContract", "walletClient.writeContract",
        "publicClient.waitForTransactionReceipt"] : List String).length = 3) :=
  ⟨(success_path_delegate_call_counts demoBalanceRpc demoTransferDeps demoAddr
      "regtest" "https://e" demoAddr { address := none }
      { tokenAddress := demoAddr, toAddress := demoAddr, amount := "100" }).1
    { address := demoAddr, balance := "5",
      balanceFormatted := "0.000000000000000005 BTC",
      network := "regtest", blockNumber := 7 }
    ["publicClient.getBalance", "publicClient.getBlockNumber"] (by decide),
   (success_path_delegate_call_counts demoBalanceRpc demoTransferDeps demoAddr
      "regtest" "https://e" demoAddr { address := none }
      { tokenAddress := demoAddr, toAddress := demoAddr, amount := "100" }).2
    { transactionHash := "0xhash", blockNumber := 3, status := "success",
      gasUsed := "21000", explorerUrl := "https://e/tx/0xhash",
      tokenAddress := demoAddr, fromAddress := demoAddr,
      toAddress := demoAddr, amount := "100" }
    ["publicClient.readContract", "walletClient.writeContract",
     "publicClient.waitForTransactionReceipt"] (by decide)⟩

/-- C4: when the native-transfer delegate chain fails (a throw from the
transaction submission or from the receipt wait) with message m, the
failure envelope's category is INSUFFICIENT_FUNDS exactly when m
contains the substring "insufficient funds" and TX_REVERTED otherwise,
and the category is always drawn from the fixed error code set. -/
theorem send_transaction_error_category (rpc : SendTxRpc) (explorerUrl m : String)
    (h : rpc.sendTransaction = .error m ∨
      ∃ hash, rpc.sendTransaction = .ok hash ∧
        rpc.waitForTransactionReceipt hash = .error m) :
    ∃ e, (walletSendTransaction rpc explorerUrl).1 = .failure e ∧
      (e.code = "INSUFFICIENT_FUNDS" ↔ jsIncludes m "insufficient funds" = true) ∧
      (jsIncludes m "insufficient funds" = false → e.code = "TX_REVERTED") ∧
      e.code ∈ errorCodeStrings := by
  have hcatch : ∀ arb : ToolResponse TxReceipt, arb = sendTxCatch m →
      ∃ e, arb = .failure e ∧
        (e.code = "INSUFFICIENT_FUNDS" ↔ jsIncludes m "insufficient funds" = true) ∧
        (jsIncludes m "insufficient funds" = false → e.code = "TX_REVERTED") ∧
        e.code ∈ errorCodeStrings := by
    intro arb harb
    cases hj : jsIncludes m "insufficient funds" with
    | true =>
        refine ⟨⟨"INSUFFICIENT_FUNDS", m, none,
            some "Use midl_bridge_btc_to_evm to bridge BTC to your EVM wallet"⟩,
          ?_, ?_, ?_, ?_⟩
        · rw [harb]
          simp [sendTxCatch, hj, mkError, ErrorCode.str, ErrorSuggestion]
        · simp
        · intro hcontra
          simp [hj] at hcontra
        · simp [errorCodeStrings]
    | false =>
        refine ⟨⟨"TX_REVERTED", "Transaction failed: " ++ m, none,
            some "Check transaction parameters and ensure sufficient gas"⟩,
          ?_, ?_, ?_, ?_⟩
        · rw [harb]
          simp [sendTxCatch, hj, mkError, ErrorCode.str, ErrorSuggestion]
        · simp
        · intro _
          rfl
        · simp [errorCodeStrings]
  rcases h with hs | ⟨hash, hs, hr⟩
  · apply hcatch
    simp [walletSendTransaction, hs]
  · apply hcatch
    simp [walletSendTransaction, hs, hr]

/-- Delegates for the C4 witness: the submission throws with an
insufficient-funds message. -/
def demoFailSendRpc : SendTxRpc :=
  { sendTransaction := .error "insufficient funds for gas * price + value"
    waitForTransactionReceipt := fun _ => .error "never reached" }

/-- Witness for C4 at a concrete failing delegate. -/
theorem send_transaction_error_category_witness :
    ∃ e, (walletSendTransaction demoFailSendRpc "https://e").1 = .failure e ∧
      (e.code = "INSUFFICIENT_FUNDS" ↔
        jsIncludes "insufficient funds for gas * price + value" "insufficient funds" = true) ∧
      (jsIncludes "insufficient funds for gas * price + value" "insufficient funds" = false →
        e.code = "TX_REVERTED") ∧
      e.code ∈ errorCodeStrings :=
  send_transaction_error_category demoFailSendRpc "https://e"
    "insufficient funds for gas * price + value" (Or.inl rfl)

/-- C9: every success envelope of the BTC balance tool satisfies the
balance arithmetic: confirmed is the chain-stats funded sum minus spent
sum, unconfirmed the mempool-stats difference, balanceSatoshis their
sum, and balanceFormatted that sum over the satoshis-per-BTC constant
rendered to eight decimals. -/
theorem btc_balance_envelope_sum (fetchResult : Except String FetchResponse)
    (networkName mempoolUrl : String) (raw : BtcBalanceInput)
    (d : BtcBalanceInfo) (tr : List String)
    (h : (getBtcBalanceTool fetchResult networkName mempoolUrl).run raw =
      (.success d, tr)) :
    ∃ (resp : FetchResponse) (data : BtcApiData),
      fetchResult = .ok resp ∧ resp.body = .ok data ∧
      d.confirmedSatoshis = toString
        (data.chain_stats.funded_txo_sum - data.chain_stats.spent_txo_sum) ∧
      d.unconfirmedSatoshis = toString
        (data.mempool_stats.funded_txo_sum - data.mempool_stats.spent_txo_sum) ∧
      d.balanceSatoshis = toString
        ((data.chain_stats.funded_txo_sum - data.chain_stats.spent_txo_sum) +
          (data.mempool_stats.funded_txo_sum - data.mempool_stats.spent_txo_sum)) ∧
      d.balanceFormatted = jsToFixed8OfSats
        ((data.chain_stats.funded_txo_sum - data.chain_stats.spent_txo_sum) +
          (data.mempool_stats.funded_txo_sum - data.mempool_stats.spent_txo_sum)) ++
        " BTC" := by
  simp only [MidlTool.run, getBtcBalanceTool] at h
  by_cases hp : 26 ≤ raw.address.data.length ∧ raw.address.data.length ≤ 90
  · rw [if_pos hp] at h
    rcases hf : fetchResult with m | resp
    · simp [btcBalanceExecute, hf, mkError] at h
    · cases hok : resp.ok with
      | false =>
          simp [btcBalanceExecute, hf, hok, mkError] at h
      | true =>
          rcases hb : resp.body with m | data
          · simp [btcBalanceExecute, hf, hok, hb, mkError] at h
          · refine ⟨resp, data, rfl, hb, ?_⟩
            simp only [btcBalanceExecute, hf, hok, hb, Bool.true_eq_false, if_false,
              Prod.mk.injEq, ToolResponse.success.injEq] at h
            rw [← h.1]
            exact ⟨rfl, rfl, rfl, rfl⟩
  · rw [if_neg hp] at h
    simp at h

/-- A concrete successful mempool API response. -/
def demoFetch : Except String FetchResponse :=
  .ok { ok := true, status := 200
        body := .ok
          { chain_stats := { funded_txo_sum := 700, spent_txo_sum := 200 }
            mempool_stats := { funded_txo_sum := 100, spent_txo_sum := 50 } } }

/-- Witness for C9 at the concrete response. -/
theorem btc_balance_envelope_sum_witness :
    ∃ (resp : FetchResponse) (data : BtcApiData),
      demoFetch = .ok resp ∧ resp.body = .ok data ∧
      "500" = toString
        (data.chain_stats.funded_txo_sum - data.chain_stats.spent_txo_sum) ∧
      "50" = toString
        (data.mempool_stats.funded_txo_sum - data.mempool_stats.spent_txo_sum) ∧
      "550" = toString
        ((data.chain_stats.funded_txo_sum - data.chain_stats.spent_txo_sum) +
          (data.mempool_stats.funded_txo_sum - data.mempool_stats.spent_txo_sum)) ∧
      "0.00000550 BTC" = jsToFixed8OfSats
        ((data.chain_stats.funded_txo_sum - data.chain_stats.spent_txo_sum) +
          (data.mempool_stats.funded_txo_sum - data.mempool_stats.spent_txo_sum)) ++
        " BTC" :=
  btc_balance_envelope_sum demoFetch "regtest" "https://m"
    { address := "bcrt1qqqqqqqqqqqqqqqqqqqqqqqqqq" }
    { address := "bcrt1qqqqqqqqqqqqqqqqqqqqqqqqqq", balanceSatoshis := "550",
      balanceFormatted := "0.00000550 BTC", confirmedSatoshis := "500",
      unconfirmedSatoshis := "50", network := "regtest" }
    ["fetch"] (by decide)

/-- C10: a non-numeric or non-positive bridge amount is rejected with
an INVALID_ADDRESS failure envelope before any delegate call: with BTC
units, whenever parseFloat yields NaN or a non-positive value; with
satoshi units, whenever the parsed big integer is non-positive.  The
empty delegate trace shows the BTC wallet was never connected. -/
theorem bridge_nonpositive_amount_rejected (deps : BridgeDeps)
    (mempoolUrl amount : String) :
    ((deps.parseFloat amount = none ∨
        ∃ q, deps.parseFloat amount = some q ∧ q ≤ 0) →
      ((bridgeBtcToEvmTool deps mempoolUrl).run
          { amount := amount, unit := some .btc }).2 = [] ∧
      ∃ e, ((bridgeBtcToEvmTool deps mempoolUrl).run
          { amount := amount, unit := some .btc }).1 = .failure e ∧
        e.code = "INVALID_ADDRESS") ∧
    (∀ v, deps.parseBigInt amount = .ok v → v ≤ 0 →
      ((bridgeBtcToEvmTool deps mempoolUrl).run
          { amount := amount, unit := some .satoshis }).2 = [] ∧
      ∃ e, ((bridgeBtcToEvmTool deps mempoolUrl).run
          { amount := amount, unit := some .satoshis }).1 = .failure e ∧
        e.code = "INVALID_ADDRESS") := by
  constructor
  · intro hbad
    have hrun : (bridgeBtcToEvmTool deps mempoolUrl).run
        { amount := amount, unit := some .btc } =
        (mkError .INVALID_ADDRESS ("Invalid BTC amount: " ++ amount) none none, []) := by
      rcases hbad with hnan | ⟨q, hq, hle⟩
      · simp [MidlTool.run, bridgeBtcToEvmTool, bridgeExecute, hnan]
      · simp [MidlTool.run, bridgeBtcToEvmTool, bridgeExecute, hq, hle]
    rw [hrun]
    exact ⟨rfl, _, rfl, rfl⟩
  · intro v hv hle
    have hrun : (bridgeBtcToEvmTool deps mempoolUrl).run
        { amount := amount, unit := some .satoshis } =
        (mkError .INVALID_ADDRESS "Amount must be greater than 0" none none, []) := by
      simp [MidlTool.run, bridgeBtcToEvmTool, bridgeExecute, bridgeAfterParse, hv, hle]
    rw [hrun]
    exact ⟨rfl, _, rfl, rfl⟩

/-- Delegates for the C10 witness: parseFloat yields NaN and the
big-integer parse yields a negative count. -/
def demoBridgeDeps : BridgeDeps :=
  { parseFloat := fun _ => none
    parseBigInt := fun _ => .ok (-5)
    connect := .ok ()
    bridgeBtcToEvm := fun _ => .error "never reached" }

/-- Witness for C10 at the concrete malformed and negative amounts. -/
theorem bridge_nonpositive_amount_rejected_witness :
    (((bridgeBtcToEvmTool demoBridgeDeps "https://m").run
          { amount := "abc", unit := some .btc }).2 = [] ∧
      ∃ e, ((bridgeBtcToEvmTool demoBridgeDeps "https://m").run
          { amount := "abc", unit := some .btc }).1 = .failure e ∧
        e.code = "INVALID_ADDRESS") ∧
    (((bridgeBtcToEvmTool demoBridgeDeps "https://m").run
          { amount := "-5", unit := some .satoshis }).2 = [] ∧
      ∃ e, ((bridgeBtcToEvmTool demoBridgeDeps "https://m").run
          { amount := "-5", unit := some .satoshis }).1 = .failure e ∧
        e.code = "INVALID_ADDRESS") :=
  ⟨(bridge_nonpositive_amount_rejected demoBridgeDeps "https://m" "abc").1 (Or.inl rfl),
   (bridge_nonpositive_amount_rejected demoBridgeDeps "https://m" "-5").2 (-5) rfl
     (by decide)⟩

/-- C6: for every public key accepted by the conversion schema, the
tool is deterministic and network-free: two invocations on the same
input are equal, the delegate trace is empty, and the result is the
pure derivation pipeline applied to the key (decompress a compressed
key, drop the uncompressed marker byte, keccak256 the 64-byte key,
take the last 20 bytes, checksum). -/
theorem convert_btc_to_evm_deterministic_pure (libs : CryptoLibs) (k : String)
    (h : pubKeyOk k = true) :
    (convertBtcToEvmTool libs).run { publicKey := k } =
      (convertBtcToEvmTool libs).run { publicKey := k } ∧
    ((convertBtcToEvmTool libs).run { publicKey := k }).2 = [] ∧
    ((convertBtcToEvmTool libs).run { publicKey := k }).1 =
      (match deriveEvmAddress libs k with
        | .ok a => .success { publicKey := k, evmAddress := a }
        | .error m =>
            mkError .INVALID_ADDRESS ("Failed to derive EVM address: " ++ m)
              none none) := by
  refine ⟨rfl, ?_, ?_⟩
  · rcases hd : deriveEvmAddress libs k with m | a <;>
      simp [MidlTool.run, convertBtcToEvmTool, h, hd]
  · rcases hd : deriveEvmAddress libs k with m | a <;>
      simp [MidlTool.run, convertBtcToEvmTool, h, hd]

/-- Concrete pure library stand-ins for the C6 witness (any functions
work: the theorem holds for all of them). -/
def demoCryptoLibs : CryptoLibs :=
  { decompress := fun _ => .ok (List.replicate 65 4)
    keccakBytes := fun _ => List.replicate 32 171
    checksumAddress := fun s => s }

/-- Witness for C6 at a concrete compressed public key. -/
theorem convert_btc_to_evm_deterministic_pure_witness :
    (convertBtcToEvmTool demoCryptoLibs).run
        { publicKey := "0x02c6047f9441ed7d6d3045406e95c07cd85c778e4b8cef3ca7abac09b95c709ee5" } =
      (convertBtcToEvmTool demoCryptoLibs).run
        { publicKey := "0x02c6047f9441ed7d6d3045406e95c07cd85c778e4b8cef3ca7abac09b95c709ee5" } ∧
    ((convertBtcToEvmTool demoCryptoLibs).run
        { publicKey := "0x02c6047f9441ed7d6d3045406e95c07cd85c778e4b8cef3ca7abac09b95c709ee5" }).2 = [] ∧
    ((convertBtcToEvmTool demoCryptoLibs).run
        { publicKey := "0x02c6047f9441ed7d6d3045406e95c07cd85c778e4b8cef3ca7abac09b95c709ee5" }).1 =
      (match deriveEvmAddress demoCryptoLibs
          "0x02c6047f9441ed7d6d3045406e95c07cd85c778e4b8cef3ca7abac09b95c709ee5" with
        | .ok a => .success
            { publicKey := "0x02c6047f9441ed7d6d3045406e95c07cd85c778e4b8cef3ca7abac09b95c709ee5",
              evmAddress := a }
        | .error m =>
            mkError .INVALID_ADDRESS ("Failed to derive EVM address: " ++ m)
              none none) :=
  convert_btc_to_evm_deterministic_pure demoCryptoLibs
    "0x02c6047f9441ed7d6d3045406e95c07cd85c778e4b8cef3ca7abac09b95c709ee5" (by decide)

/-- Helper: the hex digit list of n has at most k digits when n is
below 16^k (with positive k and enough fuel). -/
theorem hexDigitsLEAux_length_le (fuel : Nat) :
    ∀ k n, n < fuel → n < 16 ^ k → 0 < k → (hexDigitsLEAux fuel n).length ≤ k := by
  induction fuel with
  | zero =>
      intro k n hn _ _
      omega
  | succ fuel ih =>
      intro k n _hn hk hkpos
      by_cases h16 : n < 16
      · simp [hexDigitsLEAux, h16]
        omega
      · simp only [hexDigitsLEAux, h16, if_false, List.length_cons]
        cases k with
        | zero => omega
        | succ k' =>
            cases k' with
            | zero =>
                exfalso
                simp at hk
                omega
            | succ k'' =>
                have hfuel : n / 16 < fuel := by
                  have hlt : n / 16 < n := Nat.div_lt_self (by omega) (by omega)
                  omega
                have hpow : n / 16 < 16 ^ (k'' + 1) := by
                  rw [Nat.div_lt_iff_lt_mul (by omega)]
                  calc n < 16 ^ (k'' + 2) := hk
                    _ = 16 ^ (k'' + 1) * 16 := by ring
                have := ih (k'' + 1) (n / 16) hfuel hpow (by omega)
                omega

/-- Helper: the JavaScript hex rendering of n has at most 32 digits
when n is below 16^32. -/
theorem jsToHexString_length_le (n : Nat) (h : n < 16 ^ 32) :
    (jsToHexString n).data.length ≤ 32 := by
  show (hexDigitsLE n).reverse.length ≤ 32
  rw [List.length_reverse]
  exact hexDigitsLEAux_length_le (n + 1) 32 n (by omega) h (by omega)

/-- Helper: left-padding a short enough string reaches exactly the
target length. -/
theorem jsPadStart_length (len : Nat) (c : Char) (s : String)
    (h : s.data.length ≤ len) : (jsPadStart len c s).data.length = len := by
  show (List.replicate (len - s.data.length) c ++ s.data).length = len
  rw [List.length_append, List.length_replicate]
  omega

/-- Concrete environment for the rune address derivation (the keccak
and the two SDK contract addresses are external constants; any
instantiation exercises the derivation structure). -/
def demoRuneEnv : RuneEnv :=
  { keccakHex := fun _ =>
      "0x0000000000000000000000000000000000000000000000000000000000000000"
    checksumAddress := fun s => s
    executorAddr := "0x0000000000000000000000000000000000000001"
    runeImplAddr := "0x0000000000000000000000000000000000000002"
    explorerUrl := "https://blockscout.staging.midl.xyz" }

/-- C7 counterexample: the rune ID whose block height is 2^128 matches
the blockHeight:txIndex shape, yet the tool does not succeed: the
33-digit hex rendering overflows the 32-byte packing, the encodePacked
size check throws, and the run wrapper returns an UNKNOWN_ERROR failure
envelope instead of an address. -/
theorem rune_address_huge_id_fails_cx :
    runeIdOk "340282366920938463463374607431768211456:0" = true ∧
    (runeErc20AddressTool demoRuneEnv).run
        { runeId := "340282366920938463463374607431768211456:0" } =
      (.failure
        { code := "UNKNOWN_ERROR"
          message := "Tool execution failed: BytesSizeMismatchError"
          details := none
          suggestion := none }, []) := by
  exact ⟨by decide, by decide⟩

/-- Helper: string concatenation concatenates the character data. -/
theorem strDataAppend (s t : String) : (s ++ t).data = s.data ++ t.data := by
  cases s
  cases t
  rfl

/-- C7 (amended): for every rune ID of shape blockHeight:txIndex whose
two decimal components are below 2^53 (the exact-integer range of the
JavaScript Number conversion, inside which the hex rendering also fits
the 16-byte fields), the tool succeeds deterministically with the
CREATE2 address derived from the Executor as deployer, a salt equal to
keccak256 of the 32-byte packing of blockHeight and txIndex as two
16-byte values, and the minimal-proxy bytecode pointing at the
RuneImplementation contract; the same rune ID always yields the same
address. -/
theorem rune_erc20_address_deterministic (env : RuneEnv) (rid a b : String)
    (hsplit : jsSplit rid ':' = [a, b])
    (ha : isDecDigits a = true) (hb : isDecDigits b = true)
    (hA : jsNumberOfDigits a < 2 ^ 53) (hB : jsNumberOfDigits b < 2 ^ 53) :
    runeIdOk rid = true ∧
    (runeErc20AddressTool env).run { runeId := rid } =
      (runeErc20AddressTool env).run { runeId := rid } ∧
    (runeErc20AddressTool env).run { runeId := rid } =
      (.success
        { runeId := rid
          erc20Address := create2Address env.keccakHex env.checksumAddress
            env.executorAddr
            (env.keccakHex ("0x" ++
              jsPadStart 32 '0' (jsToHexString (jsNumberOfDigits a)) ++
              jsPadStart 32 '0' (jsToHexString (jsNumberOfDigits b))))
            (runeProxyBytecode env.runeImplAddr)
          explorerUrl := env.explorerUrl ++ "/address/" ++
            create2Address env.keccakHex env.checksumAddress env.executorAddr
              (env.keccakHex ("0x" ++
                jsPadStart 32 '0' (jsToHexString (jsNumberOfDigits a)) ++
                jsPadStart 32 '0' (jsToHexString (jsNumberOfDigits b))))
              (runeProxyBytecode env.runeImplAddr) }, []) := by
  have h16 : (2 : Nat) ^ 53 < 16 ^ 32 := by norm_num
  have hA32 : (jsToHexString (jsNumberOfDigits a)).data.length ≤ 32 :=
    jsToHexString_length_le _ (lt_trans hA h16)
  have hB32 : (jsToHexString (jsNumberOfDigits b)).data.length ≤ 32 :=
    jsToHexString_length_le _ (lt_trans hB h16)
  have hokParse : runeIdOk rid = true := by
    simp [runeIdOk, hsplit, ha, hb]
  have hpack : runeIdToBytes32 rid =
      "0x" ++ jsPadStart 32 '0' (jsToHexString (jsNumberOfDigits a)) ++
        jsPadStart 32 '0' (jsToHexString (jsNumberOfDigits b)) := by
    simp [runeIdToBytes32, hsplit]
  have hlen : (runeIdToBytes32 rid).data.length = 66 := by
    rw [hpack, strDataAppend, strDataAppend, List.length_append, List.length_append,
      jsPadStart_length 32 '0' _ hA32, jsPadStart_length 32 '0' _ hB32]
    rfl
  have hsize : viemHexSize (runeIdToBytes32 rid) = 32 := by
    unfold viemHexSize
    rw [hlen]
  have hpacked : encodePackedBytes32 (runeIdToBytes32 rid) =
      .ok (runeIdToBytes32 rid) := by
    simp [encodePackedBytes32, hsize]
  have hderive : getCreate2RuneAddress env rid =
      .ok (create2Address env.keccakHex env.checksumAddress env.executorAddr
        (env.keccakHex (runeIdToBytes32 rid))
        (runeProxyBytecode env.runeImplAddr)) := by
    simp [getCreate2RuneAddress, hpacked]
  rw [hpack] at hderive
  refine ⟨hokParse, rfl, ?_⟩
  simp [MidlTool.run, runeErc20AddressTool, hokParse, hderive]

/-- Witness for the amended C7 at the concrete rune ID 840000:1. -/
theorem rune_erc20_address_deterministic_witness :
    runeIdOk "840000:1" = true ∧
    (runeErc20AddressTool demoRuneEnv).run { runeId := "840000:1" } =
      (runeErc20AddressTool demoRuneEnv).run { runeId := "840000:1" } ∧
    (runeErc20AddressTool demoRuneEnv).run { runeId := "840000:1" } =
      (.success
        { runeId := "840000:1"
          erc20Address := create2Address demoRuneEnv.keccakHex
            demoRuneEnv.checksumAddress demoRuneEnv.executorAddr
            (demoRuneEnv.keccakHex ("0x" ++
              jsPadStart 32 '0' (jsToHexString (jsNumberOfDigits "840000")) ++
              jsPadStart 32 '0' (jsToHexString (jsNumberOfDigits "1"))))
            (runeProxyBytecode demoRuneEnv.runeImplAddr)
          explorerUrl := demoRuneEnv.explorerUrl ++ "/address/" ++
            create2Address demoRuneEnv.keccakHex demoRuneEnv.checksumAddress
              demoRuneEnv.executorAddr
              (demoRuneEnv.keccakHex ("0x" ++
                jsPadStart 32 '0' (jsToHexString (jsNumberOfDigits "840000")) ++
                jsPadStart 32 '0' (jsToHexString (jsNumberOfDigits "1"))))
              (runeProxyBytecode demoRuneEnv.runeImplAddr) }, []) :=
  rune_erc20_address_deterministic demoRuneEnv "840000:1" "840000" "1"
    (by decide) (by decide) (by decide) (by decide) (by decide)
